import Mathlib

/-!
# Verification of the interview practice-session engine

Shallow embedding of the workflow engine in `src/03_langgraph_bot.py`:
the `InterviewState` record, the five node functions, the LangGraph
channel-merge semantics (`exchanges` is an `operator.add` append channel,
every other field a last-value channel), the `should_continue` router,
the checkpoint save/load pair, and the report writer.

Python strings are modelled as `List Char` where character-level
operations matter; Python `int` is `Int`.  Console input and reasoning
service output are abstracted as explicit string inputs to each step.
-/

/- ---------------------------------------------------------------
   Python string primitives used by the script
   --------------------------------------------------------------- -/

/-- Characters removed by Python `str.strip()` with no argument. -/
def pyIsSpace (c : Char) : Bool :=
  c == ' ' || c == '\t' || c == '\n' || c == '\x0b' || c == '\x0c' || c == '\r'

/-- Python `str.strip()` on a character list. -/
def pyStrip (l : List Char) : List Char :=
  ((l.dropWhile pyIsSpace).reverse.dropWhile pyIsSpace).reverse

/-- Python `str.strip()` on a `String`. -/
def pyStripS (s : String) : String := String.mk (pyStrip s.data)

/-- Python `str.lower()` (the script only compares against ASCII targets,
so ASCII lowering suffices). -/
def pyLower (l : List Char) : List Char := l.map Char.toLower

/-- Python `str.lower()` on a `String`. -/
def pyLowerS (s : String) : String := String.mk (pyLower s.data)

/-- Python `str.split(sep)` for a one-character separator: always returns
at least one piece, empty pieces included. -/
def splitOnChar (sep : Char) : List Char → List (List Char)
  | [] => [[]]
  | c :: cs =>
    if c == sep then [] :: splitOnChar sep cs
    else
      match splitOnChar sep cs with
      | [] => [[c]]
      | l :: ls => (c :: l) :: ls

/-- The part of `l` after the first occurrence of `sep`, if any. -/
def afterFirstAux (sep : Char) : List Char → Option (List Char)
  | [] => none
  | c :: cs => if c == sep then some cs else afterFirstAux sep cs

/-- Python `l.split(sep, 1)[-1]`: the part after the first `sep`,
or the whole list when `sep` is absent. -/
def afterFirst (sep : Char) (l : List Char) : List Char :=
  (afterFirstAux sep l).getD l

/-- Digit run to a number; `none` unless every character is a digit. -/
def digitsToNatAux (acc : Nat) : List Char → Option Nat
  | [] => some acc
  | c :: cs =>
    if c.isDigit then digitsToNatAux (acc * 10 + (c.toNat - '0'.toNat)) cs
    else none

/-- Nonempty all-digit run to a number. -/
def digitsToNat : List Char → Option Nat
  | [] => none
  | l => digitsToNatAux 0 l

/-- Python `int(text)`: strip whitespace, optional sign, decimal digits.
(Underscore digit grouping accepted by CPython is not modelled; every
successful parse below is clamped, so it affects no stated property.) -/
def parseIntPy (l : List Char) : Option Int :=
  match pyStrip l with
  | '+' :: ds => (digitsToNat ds).map (fun n => (n : Int))
  | '-' :: ds => (digitsToNat ds).map (fun n => -(n : Int))
  | ds => (digitsToNat ds).map (fun n => (n : Int))

/- ---------------------------------------------------------------
   Data model: Exchange and InterviewState (lines 80-109, 239-245)
   --------------------------------------------------------------- -/

/-- One question/answer record, created by `ask_question`; `score` and
`feedback` are set later by `analyze_answer` (the Python dict gains those
keys only then, hence `Option`). -/
structure Exchange where
  question_num : Int
  question : String
  answer : String
  timestamp : String
  score : Option Int
  feedback : Option String
deriving Repr, DecidableEq

/-- The `InterviewState` TypedDict (lines 80-109).  `exchanges` is
`Annotated[List[dict], operator.add]`; every other field is a plain
last-value channel. -/
structure InterviewState where
  company : String
  position : String
  difficulty : String
  questions : List String
  current_index : Int
  exchanges : List Exchange
  scores : List Int
  weak_areas : List String
  user_wants_continue : Bool
  session_complete : Bool
deriving Repr, DecidableEq

/-- A node's partial update: the Python nodes return dicts holding only
the keys they change.  `company`/`position`/`difficulty` are never
written by any node and so have no slot here. -/
structure StateUpdate where
  questions : Option (List String) := none
  current_index : Option Int := none
  exchanges : Option (List Exchange) := none
  scores : Option (List Int) := none
  weak_areas : Option (List String) := none
  user_wants_continue : Option Bool := none
  session_complete : Option Bool := none
deriving Repr, DecidableEq

/-- LangGraph's channel merge for this state type: the `exchanges`
channel is `Annotated[..., operator.add]`, so returned items are
concatenated onto the prior list; every other channel is last-value,
so a returned value replaces the prior one. -/
def applyUpdate (s : InterviewState) (u : StateUpdate) : InterviewState :=
  { company := s.company
    position := s.position
    difficulty := s.difficulty
    questions := u.questions.getD s.questions
    current_index := u.current_index.getD s.current_index
    exchanges := s.exchanges ++ u.exchanges.getD []
    scores := u.scores.getD s.scores
    weak_areas := u.weak_areas.getD s.weak_areas
    user_wants_continue := u.user_wants_continue.getD s.user_wants_continue
    session_complete := u.session_complete.getD s.session_complete }

/- ---------------------------------------------------------------
   Router (lines 466-484) and conditional-edge table (lines 521-528)
   --------------------------------------------------------------- -/

/-- The `Literal["ask_question", "wrap_up"]` return type of the router. -/
inductive Route where
  | ask_question
  | wrap_up
deriving Repr, DecidableEq

/-- `should_continue` (lines 466-484): wrap up when the user declined to
continue, or when every question has been asked; otherwise loop. -/
def should_continue (s : InterviewState) : Route :=
  if s.user_wants_continue = false then Route.wrap_up
  else if (s.questions.length : Int) ≤ s.current_index then Route.wrap_up
  else Route.ask_question

/-- The node names of the graph (lines 506-510), plus a terminal marker
for LangGraph's `END`. -/
inductive Node where
  | generate_questions
  | ask_question
  | analyze_answer
  | give_feedback
  | wrap_up
  | finished
deriving Repr, DecidableEq

/-- The conditional-edge dictionary of `add_conditional_edges`
(lines 521-528): router outcome to next node. -/
def routeTarget : Route → Node
  | Route.ask_question => Node.ask_question
  | Route.wrap_up => Node.wrap_up

/-- `workflow.set_entry_point("generate_questions")` (line 513). -/
def workflow_entry_point : Node := Node.generate_questions

/- ---------------------------------------------------------------
   Node 1: generate_questions (lines 129-195)
   --------------------------------------------------------------- -/

/-- The hard-coded fallback question set (lines 176-182), used when no
usable line was extracted from the reasoning output. -/
def fallbackQuestions : List String :=
  [ "Tell me about a challenging technical project you\x27ve worked on.",
    "How do you approach debugging a complex system?",
    "Describe a time you had to learn a new technology quickly.",
    "How would you design a system for [relevant task]?",
    "What interests you about this role at our company?" ]

/-- Per-line extraction of `generate_questions` (lines 165-172): strip
the line; keep it when nonempty and starting with a digit or a dash;
for digit-initial lines drop a leading `"1."` / `"1)"` ordinal marker
(via `split('.', 1)[-1]` then `split(')', 1)[-1]`, each stripped). -/
def parseQuestionLine (l : List Char) : Option String :=
  match pyStrip l with
  | [] => none
  | c :: cs =>
    if c.isDigit then
      some (String.mk (pyStrip (afterFirst ')' (pyStrip (afterFirst '.' (c :: cs))))))
    else if c == '-' then some (String.mk (c :: cs))
    else none

/-- The usable lines of a reasoning output: `content.strip().split('\n')`
filtered through `parseQuestionLine` (lines 163-172). -/
def usable_lines (content : String) : List String :=
  (splitOnChar '\n' (pyStrip content.data)).filterMap parseQuestionLine

/-- The questions produced by `generate_questions` from the raw
reasoning output (lines 163-190): usable lines, the fallback set when
there are none, truncated to 5 (`questions[:5]`).  There is no padding
step: 1-4 usable lines yield that many questions. -/
def generate_questions_parse (content : String) : List String :=
  let qs := usable_lines content
  (if qs = [] then fallbackQuestions else qs).take 5

/-- The dict returned by `generate_questions` (lines 189-195). -/
def generate_update (content : String) : StateUpdate :=
  { questions := some (generate_questions_parse content)
    current_index := some 0
    exchanges := some []
    scores := some []
    weak_areas := some [] }

/- ---------------------------------------------------------------
   Node 2: ask_question (lines 198-246)
   --------------------------------------------------------------- -/

/-- The multi-line console answer, joined and stripped (line 233);
an answer that is empty after stripping becomes the sentinel
placeholder (lines 235-236). -/
def processAnswer (raw : String) : String :=
  let t := pyStripS raw
  if t = "" then "(No answer provided)" else t

/-- The dict returned by `ask_question` (lines 239-246): one new
exchange for `questions[current_index]`.  (`questions[idx]` would raise
in Python when `idx ≥ len(questions)`; the node is only ever entered
with `current_index < len(questions)`, proved as `NodeInv` below, so the
`getD ""` default is never taken on a reachable state.) -/
def ask_update (raw ts : String) (s : InterviewState) : StateUpdate :=
  let idx := s.current_index
  let exch : Exchange :=
    { question_num := idx + 1
      question := s.questions.getD idx.toNat ""
      answer := processAnswer raw
      timestamp := ts
      score := none
      feedback := none }
  { exchanges := some [exch] }

/- ---------------------------------------------------------------
   Node 3: analyze_answer and its feedback parsing (lines 249-330)
   --------------------------------------------------------------- -/

/-- The score marker token (line 305). -/
def scoreMarker : List Char := "SCORE:".data

/-- The weak-area marker token (line 313). -/
def weakMarker : List Char := "WEAK_AREA:".data

/-- The "no issue" labels discarded case-insensitively (line 315). -/
def noIssueData : List (List Char) := ["none".data, "n/a".data, "-".data]

/-- Accumulator of the parsing loop over feedback lines
(lines 300-316): current score and optional weak-area label. -/
structure FeedbackParse where
  score : Int
  weak_area : Option (List Char)
deriving Repr, DecidableEq

/-- `SCORE:` line handling (lines 305-312): take `line.split(':')[1]`,
strip, take the part before a `/`, parse as int and clamp to `[1, 10]`;
any failure in the `try` block yields the default 5. -/
def scoreFromLine (line : List Char) : Int :=
  match (splitOnChar ':' line).get? 1 with
  | none => 5
  | some t =>
    match parseIntPy ((splitOnChar '/' (pyStrip t)).headD []) with
    | none => 5
    | some n => max 1 (min 10 n)

/-- One iteration of the feedback parsing loop (lines 303-316). -/
def analyzeLine (st : FeedbackParse) (l : List Char) : FeedbackParse :=
  let line := pyStrip l
  if scoreMarker.isPrefixOf line then
    { st with score := scoreFromLine line }
  else if weakMarker.isPrefixOf line then
    let area := pyStrip (afterFirst ':' line)
    if pyLower area ∈ noIssueData then st
    else { st with weak_area := some area }
  else st

/-- The feedback parsing loop over all lines (lines 300-316). -/
def analyzeLines : FeedbackParse → List (List Char) → FeedbackParse
  | st, [] => st
  | st, l :: ls => analyzeLines (analyzeLine st l) ls

/-- The (score, weak area) pair `analyze_answer` extracts from a raw
feedback text: loop over `content.split('\n')` starting from the default
score 5 and no weak area (lines 299-316). -/
def analyze_parse (content : String) : FeedbackParse :=
  analyzeLines { score := 5, weak_area := none } (splitOnChar '\n' content.data)

/-- The score extracted from a feedback text. -/
def analyze_score (content : String) : Int := (analyze_parse content).score

/-- The weak-area label extracted from a feedback text. -/
def analyze_weak (content : String) : Option (List Char) :=
  (analyze_parse content).weak_area

/-- Whether some line of the text starts (after stripping) with the
score marker. -/
def has_score_line (content : String) : Bool :=
  (splitOnChar '\n' content.data).any (fun l => scoreMarker.isPrefixOf (pyStrip l))

/-- The dict returned by `analyze_answer` (lines 322-330): scores always
gains the parsed score; `weak_areas` is included only when the parsed
label is truthy (`if weak_area:`), i.e. present and nonempty. -/
def analyze_answer_update (content : String) (s : InterviewState) : StateUpdate :=
  { scores := some (s.scores ++ [analyze_score content])
    weak_areas :=
      match analyze_weak content with
      | some a => if a = [] then none else some (s.weak_areas ++ [String.mk a])
      | none => none }

/-- In-place enrichment of the last exchange (lines 319-320):
`state["exchanges"][-1]["score"] = score` and `["feedback"] = content`
mutate the dict already stored in the `exchanges` channel. -/
def setLastExchange (exs : List Exchange) (sc : Int) (fb : String) : List Exchange :=
  match exs with
  | [] => []
  | [e] => [{ e with score := some sc, feedback := some fb }]
  | e :: rest => e :: setLastExchange rest sc fb

/-- The whole effect of the `analyze_answer` node on the state: the
in-place mutation of the last exchange, then the returned update merged
by the engine. -/
def analyze_answer_step (content : String) (s : InterviewState) : InterviewState :=
  let s2 := { s with
    exchanges := setLastExchange s.exchanges (analyze_score content) content }
  applyUpdate s2 (analyze_answer_update content s)

/- ---------------------------------------------------------------
   Node 4: give_feedback (lines 333-386)
   --------------------------------------------------------------- -/

/-- The dict returned by `give_feedback` (lines 371-386): advance the
index; when questions remain, read a continuation answer
(`.strip().lower()`, affirmative on "yes"/"y"/empty), else force
`user_wants_continue` to false. -/
def give_feedback_update (cont_resp : String) (s : InterviewState) : StateUpdate :=
  let new_index := s.current_index + 1
  let remaining := (s.questions.length : Int) - new_index
  let wants :=
    if remaining > 0 then
      pyLowerS (pyStripS cont_resp) ∈ (["yes", "y", ""] : List String)
    else false
  { current_index := some new_index
    user_wants_continue := some wants }

/- ---------------------------------------------------------------
   Node 5: wrap_up_session (lines 389-459)
   --------------------------------------------------------------- -/

/-- The dict returned by `wrap_up_session` (line 459): only the
completion flag (the statistics it prints are console output). -/
def wrap_up_update : StateUpdate :=
  { session_complete := some true }

/- ---------------------------------------------------------------
   The assembled graph as a step machine (lines 491-534)
   --------------------------------------------------------------- -/

/-- The external inputs a session consumes, indexed by how many times
the consuming node has already run: the reasoning output for question
generation, one console answer and timestamp per ask, one raw feedback
text per analysis, one continuation response per feedback prompt. -/
structure Inputs where
  gen_text : String
  answers : List String
  timestamps : List String
  feedback_texts : List String
  continue_answers : List String
deriving Repr, DecidableEq

/-- One node execution of the compiled graph: run the node at the
current position, merge its update, and follow the outgoing edge
(linear edges at lines 516-518, the conditional edge at lines 521-528,
`wrap_up → END` at line 531). -/
def stepM (inp : Inputs) : Node × InterviewState → Node × InterviewState
  | (Node.generate_questions, s) =>
    (Node.ask_question, applyUpdate s (generate_update inp.gen_text))
  | (Node.ask_question, s) =>
    let k := s.exchanges.length
    (Node.analyze_answer,
     applyUpdate s (ask_update (inp.answers.getD k "") (inp.timestamps.getD k "") s))
  | (Node.analyze_answer, s) =>
    (Node.give_feedback,
     analyze_answer_step (inp.feedback_texts.getD s.scores.length "") s)
  | (Node.give_feedback, s) =>
    let s2 := applyUpdate s
      (give_feedback_update (inp.continue_answers.getD s.current_index.toNat "") s)
    (routeTarget (should_continue s2), s2)
  | (Node.wrap_up, s) => (Node.finished, applyUpdate s wrap_up_update)
  | (Node.finished, s) => (Node.finished, s)

/-- `n` node executions. -/
def runN (inp : Inputs) : Nat → Node × InterviewState → Node × InterviewState
  | 0, m => m
  | n + 1, m => stepM inp (runN inp n m)

/-- The fresh `initial_state` dict built by `main` (lines 678-689),
with the `BotConfig` constants (lines 58-60). -/
def fresh_initial_state : InterviewState :=
  { company := "Anthropic"
    position := "Senior Machine Learning Engineer"
    difficulty := "medium"
    questions := []
    current_index := 0
    exchanges := []
    scores := []
    weak_areas := []
    user_wants_continue := true
    session_complete := false }

/-- A fresh session begins at the entry point with the fresh state. -/
def initialMachine : Node × InterviewState :=
  (workflow_entry_point, fresh_initial_state)

/-- `app.invoke(init)` always begins at the graph's entry point,
whatever state it is given (lines 513, 695). -/
def run_session (inp : Inputs) (init : InterviewState) (n : Nat) :
    Node × InterviewState :=
  runN inp n (workflow_entry_point, init)

/- ---------------------------------------------------------------
   CheckpointStore (lines 541-566)
   --------------------------------------------------------------- -/

/-- JSON values as written by `json.dump` and read back by `json.load`.
Every field of the state is natively serializable here (timestamps are
already ISO strings when the exchange is created, line 243), so
`default=str` is never exercised on a reachable state. -/
inductive Json where
  | str : String → Json
  | int : Int → Json
  | bool : Bool → Json
  | arr : List Json → Json
  | obj : List (String × Json) → Json
deriving Repr

/-- An exchange dict as `json.dump` renders it: the keys in creation
order; `score` and `feedback` are present only once `analyze_answer`
has added them (lines 239-245, 319-320). -/
def exchangeToJson (e : Exchange) : Json :=
  Json.obj
    ([("question_num", Json.int e.question_num),
      ("question", Json.str e.question),
      ("answer", Json.str e.answer),
      ("timestamp", Json.str e.timestamp)]
     ++ (match e.score with
         | some n => [("score", Json.int n)]
         | none => [])
     ++ (match e.feedback with
         | some f => [("feedback", Json.str f)]
         | none => []))

/-- Reading an exchange dict back.  `load_checkpoint` performs no
validation (it returns the parsed dict as the state), so this decoder
mirrors exactly the shapes `exchangeToJson` emits — Python dicts
preserve insertion order, and `json.dump`/`json.load` preserve it too. -/
def exchangeOfJson : Json → Option Exchange
  | Json.obj (("question_num", Json.int qn) :: ("question", Json.str q) ::
      ("answer", Json.str a) :: ("timestamp", Json.str ts) :: rest) =>
    match rest with
    | [] => some ⟨qn, q, a, ts, none, none⟩
    | [("score", Json.int n)] => some ⟨qn, q, a, ts, some n, none⟩
    | [("feedback", Json.str f)] => some ⟨qn, q, a, ts, none, some f⟩
    | [("score", Json.int n), ("feedback", Json.str f)] =>
      some ⟨qn, q, a, ts, some n, some f⟩
    | _ => none
  | _ => none

/-- Decode a JSON array of strings. -/
def strListOfJson : List Json → Option (List String)
  | [] => some []
  | Json.str s :: rest => (strListOfJson rest).map (fun l => s :: l)
  | _ => none

/-- Decode a JSON array of integers. -/
def intListOfJson : List Json → Option (List Int)
  | [] => some []
  | Json.int n :: rest => (intListOfJson rest).map (fun l => n :: l)
  | _ => none

/-- Decode a JSON array of exchange dicts. -/
def exchangeListOfJson : List Json → Option (List Exchange)
  | [] => some []
  | j :: rest =>
    match exchangeOfJson j with
    | some e => (exchangeListOfJson rest).map (fun l => e :: l)
    | none => none

/-- `save_checkpoint` (lines 541-554): `json.dump` of the state dict,
keys in the `InterviewState` field order used throughout the script. -/
def save_checkpoint (s : InterviewState) : Json :=
  Json.obj
    [("company", Json.str s.company),
     ("position", Json.str s.position),
     ("difficulty", Json.str s.difficulty),
     ("questions", Json.arr (s.questions.map Json.str)),
     ("current_index", Json.int s.current_index),
     ("exchanges", Json.arr (s.exchanges.map exchangeToJson)),
     ("scores", Json.arr (s.scores.map Json.int)),
     ("weak_areas", Json.arr (s.weak_areas.map Json.str)),
     ("user_wants_continue", Json.bool s.user_wants_continue),
     ("session_complete", Json.bool s.session_complete)]

/-- `load_checkpoint` (lines 557-566): `json.load` of the saved file,
interpreted as an `InterviewState`.  (The `None`-when-absent branch for
a missing file is handled by the caller in `main` and not modelled
here; this is the with-file branch.) -/
def load_checkpoint : Json → Option InterviewState
  | Json.obj [("company", Json.str c), ("position", Json.str p),
      ("difficulty", Json.str d), ("questions", Json.arr qs),
      ("current_index", Json.int idx), ("exchanges", Json.arr exs),
      ("scores", Json.arr scs), ("weak_areas", Json.arr was),
      ("user_wants_continue", Json.bool uwc),
      ("session_complete", Json.bool sc)] =>
    match strListOfJson qs, exchangeListOfJson exs, intListOfJson scs,
        strListOfJson was with
    | some qs', some exs', some scs', some was' =>
      some ⟨c, p, d, qs', idx, exs', scs', was', uwc, sc⟩
    | _, _, _, _ => none
  | _ => none

/-- The checkpoint `main` writes in its `KeyboardInterrupt` handler
(lines 706-710): `save_checkpoint(initial_state)` — the state the run
STARTED from, not the in-flight state of the interrupted run. -/
def interrupt_checkpoint (initial_state : InterviewState) : Json :=
  save_checkpoint initial_state

/-- `main`'s startup logic around an existing checkpoint
(lines 663-689): with an incomplete checkpoint, a "yes"/"y" answer
(stripped, lowered) resumes from the checkpointed state and anything
else starts fresh.  With a COMPLETE checkpoint neither branch assigns
`initial_state`, so `app.invoke(initial_state)` would raise
`NameError`; that path is `none` here. -/
def main_initial_state (checkpoint : Option InterviewState)
    (resume_resp : String) : Option InterviewState :=
  match checkpoint with
  | some cp =>
    if cp.session_complete then none
    else if pyLowerS (pyStripS resume_resp) ∈ (["yes", "y"] : List String) then
      some cp
    else some fresh_initial_state
  | none => some fresh_initial_state

/- ---------------------------------------------------------------
   SessionReporter: save_session_report (lines 569-638)
   --------------------------------------------------------------- -/

/-- The numeric summary block of the report. -/
structure ReportSummary where
  questions_completed : Nat
  average_score : ℚ
  score_min : Int
  score_max : Int
deriving Repr, DecidableEq

/-- `min(scores) if scores else 0` (line 593). -/
def pyMinD : List Int → Int
  | [] => 0
  | x :: xs => xs.foldl min x

/-- `max(scores) if scores else 0` (line 593). -/
def pyMaxD : List Int → Int
  | [] => 0
  | x :: xs => xs.foldl max x

/-- `save_session_report`'s summary head (lines 591-593).  The average
line's replacement field is `{sum(scores)/len(scores):.1f}` — the
trailing `if scores else "N/A"` on line 592 sits OUTSIDE the braces and
is literal text — so the division runs unconditionally and raises
`ZeroDivisionError` on an empty score list.  Float division is
modelled as the exact rational; `.1f` formatting is abstracted away. -/
def save_session_report (s : InterviewState) : Except String ReportSummary :=
  if s.scores.length = 0 then
    Except.error "ZeroDivisionError: division by zero"
  else
    Except.ok
      { questions_completed := s.scores.length
        average_score := (s.scores.sum : ℚ) / (s.scores.length : ℚ)
        score_min := pyMinD s.scores
        score_max := pyMaxD s.scores }

/- ---------------------------------------------------------------
   Helper lemmas: question-list size
   --------------------------------------------------------------- -/

theorem generate_parse_pos (content : String) :
    0 < (generate_questions_parse content).length := by
  show 0 < ((if usable_lines content = [] then fallbackQuestions
             else usable_lines content).take 5).length
  by_cases h : usable_lines content = []
  · rw [if_pos h]; decide
  · rw [if_neg h, List.length_take]
    have := List.length_pos.mpr h
    omega

theorem generate_parse_le_five (content : String) :
    (generate_questions_parse content).length ≤ 5 := by
  show ((if usable_lines content = [] then fallbackQuestions
         else usable_lines content).take 5).length ≤ 5
  rw [List.length_take]
  omega

theorem generate_parse_fallback (content : String)
    (h : usable_lines content = []) :
    generate_questions_parse content = fallbackQuestions := by
  show (if usable_lines content = [] then fallbackQuestions
        else usable_lines content).take 5 = fallbackQuestions
  rw [if_pos h]
  rfl

/- ---------------------------------------------------------------
   Helper lemmas: score clamping and the parse-failure default
   --------------------------------------------------------------- -/

theorem scoreFromLine_bounds (line : List Char) :
    1 ≤ scoreFromLine line ∧ scoreFromLine line ≤ 10 := by
  unfold scoreFromLine
  split
  · norm_num
  · split
    · norm_num
    · exact ⟨le_max_left 1 _, max_le (by norm_num) (min_le_left 10 _)⟩

theorem analyzeLine_score_bounds (st : FeedbackParse) (l : List Char)
    (h : 1 ≤ st.score ∧ st.score ≤ 10) :
    1 ≤ (analyzeLine st l).score ∧ (analyzeLine st l).score ≤ 10 := by
  unfold analyzeLine
  dsimp only
  split_ifs
  · exact scoreFromLine_bounds _
  · exact h
  · exact h
  · exact h

theorem analyzeLines_score_bounds (ls : List (List Char)) (st : FeedbackParse)
    (h : 1 ≤ st.score ∧ st.score ≤ 10) :
    1 ≤ (analyzeLines st ls).score ∧ (analyzeLines st ls).score ≤ 10 := by
  induction ls generalizing st with
  | nil => exact h
  | cons l ls ih => exact ih _ (analyzeLine_score_bounds st l h)

theorem analyzeLine_no_marker (st : FeedbackParse) (l : List Char)
    (h : scoreMarker.isPrefixOf (pyStrip l) = false) :
    (analyzeLine st l).score = st.score := by
  unfold analyzeLine
  dsimp only
  rw [if_neg (by simp [h])]
  split_ifs <;> rfl

theorem analyzeLines_no_marker (ls : List (List Char)) (st : FeedbackParse)
    (h : ls.any (fun l => scoreMarker.isPrefixOf (pyStrip l)) = false) :
    (analyzeLines st ls).score = st.score := by
  induction ls generalizing st with
  | nil => rfl
  | cons l ls ih =>
    rw [List.any_cons, Bool.or_eq_false_iff] at h
    rw [analyzeLines, ih _ h.2, analyzeLine_no_marker st l h.1]

/- ---------------------------------------------------------------
   Helper lemmas: weak-area labels stored by the parsing loop
   --------------------------------------------------------------- -/

/-- A weak-area slot is empty or holds a label that did not match the
no-issue set. -/
def weakOk (w : Option (List Char)) : Prop :=
  w = none ∨ ∃ a, w = some a ∧ pyLower a ∉ noIssueData

theorem analyzeLine_weakOk (st : FeedbackParse) (l : List Char)
    (h : weakOk st.weak_area) : weakOk (analyzeLine st l).weak_area := by
  unfold analyzeLine
  dsimp only
  split_ifs with h1 h2 h3
  · exact h
  · exact h
  · exact Or.inr ⟨_, rfl, h3⟩
  · exact h

theorem analyzeLines_weakOk (ls : List (List Char)) (st : FeedbackParse)
    (h : weakOk st.weak_area) : weakOk (analyzeLines st ls).weak_area := by
  induction ls generalizing st with
  | nil => exact h
  | cons l ls ih => exact ih _ (analyzeLine_weakOk st l h)

theorem analyze_weak_ok (content : String) : weakOk (analyze_weak content) :=
  analyzeLines_weakOk _ _ (Or.inl rfl)

/-- The net effect of the analyze step on `weak_areas`. -/
theorem analyze_step_weak_eq (content : String) (s : InterviewState) :
    (analyze_answer_step content s).weak_areas =
      (match analyze_weak content with
       | some a => if a = [] then s.weak_areas else s.weak_areas ++ [String.mk a]
       | none => s.weak_areas) := by
  unfold analyze_answer_step analyze_answer_update applyUpdate
  cases analyze_weak content with
  | none => rfl
  | some a => by_cases he : a = [] <;> simp [he]

theorem setLastExchange_length (exs : List Exchange) (sc : Int) (fb : String) :
    (setLastExchange exs sc fb).length = exs.length := by
  induction exs with
  | nil => rfl
  | cons e rest ih =>
    cases rest with
    | nil => rfl
    | cons e2 r2 => simpa [setLastExchange] using ih

/- ---------------------------------------------------------------
   Session invariant: what holds of the state at each node
   --------------------------------------------------------------- -/

/-- Per-node invariant of a session run.  `generate_questions` is only
ever the first node of a run from the fresh initial state, so the score
and weak-area lists are still empty and the index is 0 there; the loop
nodes are entered only while a question remains. -/
def NodeInv : Node → InterviewState → Prop
  | Node.generate_questions, s =>
    s.scores = [] ∧ s.weak_areas = [] ∧ s.current_index = 0
  | Node.ask_question, s =>
    0 ≤ s.current_index ∧ s.current_index < (s.questions.length : Int)
  | Node.analyze_answer, s =>
    0 ≤ s.current_index ∧ s.current_index < (s.questions.length : Int)
  | Node.give_feedback, s =>
    0 ≤ s.current_index ∧ s.current_index < (s.questions.length : Int)
  | Node.wrap_up, s =>
    0 ≤ s.current_index ∧ s.current_index ≤ (s.questions.length : Int)
  | Node.finished, s =>
    0 ≤ s.current_index ∧ s.current_index ≤ (s.questions.length : Int)

theorem nodeInv_bounds (node : Node) (s : InterviewState) (h : NodeInv node s) :
    0 ≤ s.current_index ∧ s.current_index ≤ (s.questions.length : Int) := by
  cases node with
  | generate_questions =>
    obtain ⟨-, -, hi⟩ := h
    constructor <;> omega
  | ask_question => exact ⟨h.1, le_of_lt h.2⟩
  | analyze_answer => exact ⟨h.1, le_of_lt h.2⟩
  | give_feedback => exact ⟨h.1, le_of_lt h.2⟩
  | wrap_up => exact h
  | finished => exact h

/-- One node execution preserves the invariant, never shortens the three
sequence fields, and never decreases the index. -/
theorem step_preserves (inp : Inputs) (m : Node × InterviewState)
    (h : NodeInv m.1 m.2) :
    NodeInv (stepM inp m).1 (stepM inp m).2
  ∧ m.2.exchanges.length ≤ (stepM inp m).2.exchanges.length
  ∧ m.2.scores.length ≤ (stepM inp m).2.scores.length
  ∧ m.2.weak_areas.length ≤ (stepM inp m).2.weak_areas.length
  ∧ m.2.current_index ≤ (stepM inp m).2.current_index := by
  obtain ⟨node, s⟩ := m
  dsimp only at h ⊢
  cases node with
  | generate_questions =>
    obtain ⟨hs, hw, hi⟩ := h
    refine ⟨⟨le_refl 0, ?_⟩, ?_, ?_, ?_, ?_⟩
    · show (0 : Int) < ((generate_questions_parse inp.gen_text).length : Int)
      exact_mod_cast generate_parse_pos inp.gen_text
    · simp [stepM, applyUpdate, generate_update]
    · simp [stepM, applyUpdate, generate_update, hs]
    · simp [stepM, applyUpdate, generate_update, hw]
    · show s.current_index ≤ (0 : Int)
      omega
  | ask_question =>
    refine ⟨h, ?_, le_refl _, le_refl _, le_refl _⟩
    simp [stepM, applyUpdate, ask_update]
  | analyze_answer =>
    refine ⟨h, ?_, ?_, ?_, le_refl _⟩
    · show s.exchanges.length ≤
        (analyze_answer_step (inp.feedback_texts.getD s.scores.length "") s).exchanges.length
      unfold analyze_answer_step analyze_answer_update applyUpdate
      simp [setLastExchange_length]
    · show s.scores.length ≤
        (analyze_answer_step (inp.feedback_texts.getD s.scores.length "") s).scores.length
      unfold analyze_answer_step analyze_answer_update applyUpdate
      simp
    · show s.weak_areas.length ≤
        (analyze_answer_step (inp.feedback_texts.getD s.scores.length "") s).weak_areas.length
      rw [analyze_step_weak_eq]
      cases analyze_weak (inp.feedback_texts.getD s.scores.length "") with
      | none => exact le_refl _
      | some a =>
        by_cases he : a = [] <;> simp [he]
  | give_feedback =>
    obtain ⟨h0, hlt⟩ := h
    have hidx : (applyUpdate s (give_feedback_update
        (inp.continue_answers.getD s.current_index.toNat "") s)).current_index
        = s.current_index + 1 := rfl
    have hqs : (applyUpdate s (give_feedback_update
        (inp.continue_answers.getD s.current_index.toNat "") s)).questions
        = s.questions := rfl
    have hex : (applyUpdate s (give_feedback_update
        (inp.continue_answers.getD s.current_index.toNat "") s)).exchanges
        = s.exchanges ++ [] := rfl
    refine ⟨?_, ?_, le_refl _, le_refl _, ?_⟩
    · show NodeInv (routeTarget (should_continue (applyUpdate s (give_feedback_update
          (inp.continue_answers.getD s.current_index.toNat "") s))))
        (applyUpdate s (give_feedback_update
          (inp.continue_answers.getD s.current_index.toNat "") s))
      unfold should_continue
      split_ifs with h1 h2
      · show NodeInv Node.wrap_up _
        rw [NodeInv, hidx, hqs]
        omega
      · show NodeInv Node.wrap_up _
        rw [NodeInv, hidx, hqs]
        omega
      · show NodeInv Node.ask_question _
        rw [NodeInv, hidx, hqs]
        rw [hidx, hqs] at h2
        omega
    · show s.exchanges.length ≤ (applyUpdate s (give_feedback_update
        (inp.continue_answers.getD s.current_index.toNat "") s)).exchanges.length
      rw [hex]
      simp
    · show s.current_index ≤ (applyUpdate s (give_feedback_update
        (inp.continue_answers.getD s.current_index.toNat "") s)).current_index
      rw [hidx]
      omega
  | wrap_up =>
    refine ⟨?_, ?_, le_refl _, le_refl _, le_refl _⟩
    · show NodeInv Node.finished _
      rw [NodeInv]
      exact h
    · simp [stepM, applyUpdate, wrap_up_update]
  | finished =>
    exact ⟨h, le_refl _, le_refl _, le_refl _, le_refl _⟩

/-- The invariant holds at every point of a fresh session. -/
theorem runN_inv (inp : Inputs) (n : Nat) :
    NodeInv (runN inp n initialMachine).1 (runN inp n initialMachine).2 := by
  induction n with
  | zero => exact ⟨rfl, rfl, rfl⟩
  | succ n ih => exact (step_preserves inp _ ih).1

/- ---------------------------------------------------------------
   Helper lemmas: checkpoint round trip
   --------------------------------------------------------------- -/

theorem exchange_roundtrip (e : Exchange) :
    exchangeOfJson (exchangeToJson e) = some e := by
  obtain ⟨qn, q, a, ts, sc, fb⟩ := e
  cases sc <;> cases fb <;> rfl

theorem strList_roundtrip (l : List String) :
    strListOfJson (l.map Json.str) = some l := by
  induction l with
  | nil => rfl
  | cons x xs ih => simp [strListOfJson, ih]

theorem intList_roundtrip (l : List Int) :
    intListOfJson (l.map Json.int) = some l := by
  induction l with
  | nil => rfl
  | cons x xs ih => simp [intListOfJson, ih]

theorem exchangeList_roundtrip (l : List Exchange) :
    exchangeListOfJson (l.map exchangeToJson) = some l := by
  induction l with
  | nil => rfl
  | cons e es ih => simp [exchangeListOfJson, exchange_roundtrip, ih]

/- ---------------------------------------------------------------
   Concrete demonstration states and inputs
   --------------------------------------------------------------- -/

/-- A state in which the user has declined to continue. -/
def stop_state : InterviewState :=
  { fresh_initial_state with
    questions := ["Q1", "Q2"]
    user_wants_continue := false }

/-- A state mid-session with questions left and a willing user. -/
def go_state : InterviewState :=
  { fresh_initial_state with questions := ["Q1", "Q2"] }

/-- A completed exchange, as left behind by an analyzed question. -/
def demo_exchange1 : Exchange :=
  { question_num := 1
    question := "Q1"
    answer := "A1"
    timestamp := "t1"
    score := some 6
    feedback := some "SCORE: 6" }

/-- A second completed exchange. -/
def demo_exchange2 : Exchange :=
  { question_num := 2
    question := "Q2"
    answer := "A2"
    timestamp := "t2"
    score := some 6
    feedback := some "SCORE: 6" }

/-- A mid-session state: one question answered and analyzed. -/
def mid_session_state : InterviewState :=
  { fresh_initial_state with
    questions := ["Q1", "Q2"]
    current_index := 1
    exchanges := [demo_exchange1]
    scores := [5]
    weak_areas := ["structuring responses with STAR"] }

/-- The input script of the interrupt scenario: five generated
questions, three answers given, two analyses completed. -/
def scenarioInputs : Inputs :=
  { gen_text := "1. Q1\n2. Q2\n3. Q3\n4. Q4\n5. Q5"
    answers := ["A1", "A2", "A3"]
    timestamps := ["t1", "t2", "t3"]
    feedback_texts := ["SCORE: 6\nWEAK_AREA: none", "SCORE: 6\nWEAK_AREA: none"]
    continue_answers := ["yes", "yes"] }

/-- An incomplete checkpoint: two of five questions done. -/
def resume_checkpoint : InterviewState :=
  { fresh_initial_state with
    questions := ["Q1", "Q2", "Q3", "Q4", "Q5"]
    current_index := 2
    exchanges := [demo_exchange1, demo_exchange2]
    scores := [6, 6] }

/- ---------------------------------------------------------------
   The claims
   --------------------------------------------------------------- -/

/-- C1: the router is a pure function of the state: it returns WrapUp
exactly when `user_wants_continue` is false (regardless of the index)
or when `current_index ≥ len(questions)`, and AskQuestion in every
other case. -/
theorem C1_router_pure (s : InterviewState) :
    (should_continue s = Route.wrap_up ↔
      (s.user_wants_continue = false
       ∨ (s.questions.length : Int) ≤ s.current_index))
  ∧ (should_continue s = Route.ask_question ↔
      (s.user_wants_continue = true
       ∧ s.current_index < (s.questions.length : Int))) := by
  unfold should_continue
  by_cases h1 : s.user_wants_continue = false
  · rw [if_pos h1]
    constructor
    · simp [h1]
    · constructor
      · intro hcon
        exact Route.noConfusion hcon
      · rintro ⟨ht, -⟩
        rw [ht] at h1
        exact absurd h1 (by decide)
  · rw [if_neg h1]
    by_cases h2 : (s.questions.length : Int) ≤ s.current_index
    · rw [if_pos h2]
      constructor
      · simp [h2]
      · constructor
        · intro hcon
          exact Route.noConfusion hcon
        · rintro ⟨-, hlt⟩
          omega
    · rw [if_neg h2]
      constructor
      · constructor
        · intro hcon
          exact Route.noConfusion hcon
        · rintro (hF | hle)
          · exact absurd hF h1
          · exact absurd hle h2
      · constructor
        · intro _
          refine ⟨?_, by omega⟩
          cases hu : s.user_wants_continue
          · exact absurd hu h1
          · rfl
        · intro _
          rfl

/-- C1 witness: the router at two concrete states. -/
theorem C1_router_pure_witness :
    should_continue stop_state = Route.wrap_up
  ∧ should_continue go_state = Route.ask_question :=
  ⟨(C1_router_pure stop_state).1.mpr (Or.inl rfl),
   (C1_router_pure go_state).2.mpr ⟨rfl, by decide⟩⟩

/-- C5: saving any session state and loading it back restores every
field exactly (timestamps are already stored as ISO strings when the
exchange is created, so even their representation survives). -/
theorem C5_checkpoint_roundtrip (s : InterviewState) :
    load_checkpoint (save_checkpoint s) = some s := by
  obtain ⟨c, p, d, qs, idx, exs, scs, was, uwc, sc⟩ := s
  show (match strListOfJson (qs.map Json.str), exchangeListOfJson (exs.map exchangeToJson),
      intListOfJson (scs.map Json.int), strListOfJson (was.map Json.str) with
    | some qs2, some exs2, some scs2, some was2 =>
      some (⟨c, p, d, qs2, idx, exs2, scs2, was2, uwc, sc⟩ : InterviewState)
    | _, _, _, _ => none) = some ⟨c, p, d, qs, idx, exs, scs, was, uwc, sc⟩
  rw [strList_roundtrip, intList_roundtrip, exchangeList_roundtrip, strList_roundtrip]

/-- C6 counterexample: a reasoning output with two usable lines yields
two questions, not the claimed exactly five — there is no padding. -/
theorem C6_counterexample_no_padding :
    generate_questions_parse "1. First question\n2. Second question"
      = ["First question", "Second question"]
  ∧ (generate_questions_parse "1. First question\n2. Second question").length
      ≠ 5 := by
  constructor
  · rfl
  · decide

/-- C6 (amended): after GenerateQuestions the questions field holds
between 1 and 5 questions: output with more than 5 usable lines is
truncated to 5, zero usable lines substitute the fixed fallback set
verbatim, and the step never fails — but output with 1-4 usable lines
yields that many questions, with no padding to 5. -/
theorem C6_question_count (content : String) :
    1 ≤ (generate_questions_parse content).length
  ∧ (generate_questions_parse content).length ≤ 5
  ∧ (usable_lines content = [] →
      generate_questions_parse content = fallbackQuestions) :=
  ⟨generate_parse_pos content, generate_parse_le_five content,
   generate_parse_fallback content⟩

/-- C6 witness: an output with no usable line takes the fallback set. -/
theorem C6_question_count_witness :
    usable_lines "no bullets here" = []
  ∧ generate_questions_parse "no bullets here" = fallbackQuestions :=
  ⟨by decide, (C6_question_count "no bullets here").2.2 (by decide)⟩

/-- C7: every extracted score lies in [1, 10] — a parsed integer is
clamped into that range and any parse failure yields 5 — and a text
with no score-marker line yields exactly 5, with no error. -/
theorem C7_score_clamped_default (content : String) :
    (1 ≤ analyze_score content ∧ analyze_score content ≤ 10)
  ∧ (has_score_line content = false → analyze_score content = 5) := by
  constructor
  · exact analyzeLines_score_bounds _ _ (by norm_num)
  · intro h
    exact analyzeLines_no_marker _ _ h

/-- C7 witness: a feedback text with no score line parses to 5. -/
theorem C7_score_clamped_default_witness :
    has_score_line "Great answer overall." = false
  ∧ analyze_score "Great answer overall." = 5 :=
  ⟨by decide, (C7_score_clamped_default "Great answer overall.").2 (by decide)⟩

/-- A terminal state with no questions answered. -/
def terminal_empty_state : InterviewState :=
  { fresh_initial_state with
    user_wants_continue := false
    session_complete := true }

/-- C2 (code bug): at the interrupt point of the scenario — after the
3rd AskQuestion, before AnalyzeAnswer — the in-flight state does have
`current_index = 2` and 3 exchanges with the third lacking a score, but
the `KeyboardInterrupt` handler saves `initial_state`, the state the
run STARTED from (lines 706-710), so the checkpoint written on exit
holds index 0 and no exchanges, not the in-flight progress. -/
theorem C2_interrupt_checkpoint_stale :
    (runN scenarioInputs 8 initialMachine).1 = Node.analyze_answer
  ∧ (runN scenarioInputs 8 initialMachine).2.current_index = 2
  ∧ (runN scenarioInputs 8 initialMachine).2.exchanges.length = 3
  ∧ ((runN scenarioInputs 8 initialMachine).2.exchanges.getLast?.map Exchange.score)
      = some none
  ∧ load_checkpoint (interrupt_checkpoint fresh_initial_state)
      = some fresh_initial_state
  ∧ fresh_initial_state.current_index = 0
  ∧ fresh_initial_state.exchanges.length = 0 := by decide

/-- C3 (code bug): accepting the resume choice does restore the exact
checkpointed state as the run's initial state, but `app.invoke` always
begins at the `generate_questions` entry point (line 513), whose first
execution resets `current_index` to 0 and `scores` to [] — the run does
not resume at the step following the last completed one. -/
theorem C3_resume_restarts_at_entry :
    main_initial_state (some resume_checkpoint) "yes" = some resume_checkpoint
  ∧ workflow_entry_point = Node.generate_questions
  ∧ (run_session scenarioInputs resume_checkpoint 1).1 = Node.ask_question
  ∧ (run_session scenarioInputs resume_checkpoint 1).2.current_index = 0
  ∧ (run_session scenarioInputs resume_checkpoint 1).2.scores = []
  ∧ resume_checkpoint.current_index = 2
  ∧ resume_checkpoint.scores = [6, 6] := by decide

/-- C4 counterexample: at the `generate_questions` step on a state with
a prior score, the engine-merged value of `scores` is the returned
empty list, a substitution — not the prior sequence with the returned
items appended. -/
theorem C4_counterexample_scores_overwritten :
    (generate_update "1. New question").scores = some []
  ∧ (applyUpdate mid_session_state (generate_update "1. New question")).scores = []
  ∧ mid_session_state.scores ++ [] = [5]
  ∧ (applyUpdate mid_session_state (generate_update "1. New question")).scores
      ≠ mid_session_state.scores ++ [] := by decide

/-- C4 (amended): the engine centrally append-merges only `exchanges`;
`scores` and `weak_areas` are overwrite channels whose returned value
replaces the prior one, and their append behaviour is produced by the
`analyze_answer` step itself, which returns the prior sequence with the
new item concatenated. -/
theorem C4_merge_semantics (s : InterviewState) (u : StateUpdate) (content : String) :
    (applyUpdate s u).exchanges = s.exchanges ++ u.exchanges.getD []
  ∧ (applyUpdate s u).scores = u.scores.getD s.scores
  ∧ (applyUpdate s u).weak_areas = u.weak_areas.getD s.weak_areas
  ∧ (applyUpdate s (analyze_answer_update content s)).scores
      = s.scores ++ [analyze_score content]
  ∧ ((applyUpdate s (analyze_answer_update content s)).weak_areas = s.weak_areas
     ∨ ∃ a, (applyUpdate s (analyze_answer_update content s)).weak_areas
         = s.weak_areas ++ [String.mk a]) := by
  refine ⟨rfl, rfl, rfl, rfl, ?_⟩
  have hsame : (applyUpdate s (analyze_answer_update content s)).weak_areas
      = (analyze_answer_step content s).weak_areas := rfl
  rw [hsame, analyze_step_weak_eq]
  rcases analyze_weak content with _ | a
  · exact Or.inl rfl
  · dsimp only
    by_cases he : a = []
    · rw [if_pos he]
      exact Or.inl rfl
    · rw [if_neg he]
      exact Or.inr ⟨a, rfl⟩

/-- C8 counterexample: a feedback text scoring 9 with a non-trivial
weak-area line still appends to `weak_areas` — the code never consults
the score before appending. -/
theorem C8_counterexample_high_score_append :
    analyze_score "SCORE: 9\nWEAK_AREA: communication" = 9
  ∧ ¬(analyze_score "SCORE: 9\nWEAK_AREA: communication" < 7)
  ∧ (analyze_answer_step "SCORE: 9\nWEAK_AREA: communication" mid_session_state).weak_areas
      = ["structuring responses with STAR", "communication"] := by decide

/-- C8 (amended): each analyze step appends at most one entry to
`weak_areas`, and appends one exactly when a weak-area label was parsed
that is nonempty and not case-insensitively in the no-issue set — with
no condition on the parsed score. -/
theorem C8_weak_area_appends (content : String) (s : InterviewState) :
    (analyze_answer_step content s).weak_areas.length ≤ s.weak_areas.length + 1
  ∧ ((analyze_answer_step content s).weak_areas = s.weak_areas
     ∨ ∃ a, analyze_weak content = some a
         ∧ a ≠ []
         ∧ pyLower a ∉ noIssueData
         ∧ (analyze_answer_step content s).weak_areas = s.weak_areas ++ [String.mk a]) := by
  rcases hw : analyze_weak content with _ | a
  · have heq : (analyze_answer_step content s).weak_areas = s.weak_areas := by
      rw [analyze_step_weak_eq, hw]
    exact ⟨by rw [heq]; omega, Or.inl heq⟩
  · by_cases he : a = []
    · have heq : (analyze_answer_step content s).weak_areas = s.weak_areas := by
        rw [analyze_step_weak_eq]
        simp only [hw]
        rw [if_pos he]
      exact ⟨by rw [heq]; omega, Or.inl heq⟩
    · have heq : (analyze_answer_step content s).weak_areas
          = s.weak_areas ++ [String.mk a] := by
        rw [analyze_step_weak_eq]
        simp only [hw]
        rw [if_neg he]
      have hok := analyze_weak_ok content
      rcases hok with hnone | ⟨a2, ha2, hmem⟩
      · rw [hw] at hnone
        exact absurd hnone (by simp)
      · rw [hw] at ha2
        injection ha2 with ha2
        subst ha2
        refine ⟨?_, Or.inr ⟨a, rfl, he, hmem, heq⟩⟩
        rw [heq]
        simp

/-- C9: across the node executions of a fresh session, the `exchanges`,
`scores` and `weak_areas` sequences never shrink, and `current_index`
never decreases while always satisfying
`0 ≤ current_index ≤ len(questions)`. -/
theorem C9_monotone_invariants (inp : Inputs) (n : Nat) :
    ((runN inp n initialMachine).2.exchanges.length
        ≤ (runN inp (n + 1) initialMachine).2.exchanges.length)
  ∧ ((runN inp n initialMachine).2.scores.length
        ≤ (runN inp (n + 1) initialMachine).2.scores.length)
  ∧ ((runN inp n initialMachine).2.weak_areas.length
        ≤ (runN inp (n + 1) initialMachine).2.weak_areas.length)
  ∧ ((runN inp n initialMachine).2.current_index
        ≤ (runN inp (n + 1) initialMachine).2.current_index)
  ∧ (0 ≤ (runN inp (n + 1) initialMachine).2.current_index)
  ∧ ((runN inp (n + 1) initialMachine).2.current_index
        ≤ ((runN inp (n + 1) initialMachine).2.questions.length : Int)) := by
  have h := runN_inv inp n
  have hp := step_preserves inp _ h
  have hb := nodeInv_bounds _ _ hp.1
  exact ⟨hp.2.1, hp.2.2.1, hp.2.2.2.1, hp.2.2.2.2, hb.1, hb.2⟩

/-- C10 (code bug): on a terminal state with no questions answered the
report writer divides by zero — the `if scores else "N/A"` on the
average line is literal text outside the f-string replacement field,
so `sum(scores)/len(scores)` runs unconditionally. -/
theorem C10_report_division_by_zero :
    terminal_empty_state.session_complete = true
  ∧ terminal_empty_state.scores = []
  ∧ save_session_report terminal_empty_state
      = Except.error "ZeroDivisionError: division by zero" := by
  refine ⟨rfl, rfl, ?_⟩
  rfl
